import Mathlib

/-!
Shallow embedding of the ArogoBhashini telemedicine web client
(frontend/src/components/ChatInterface, AudioControls, pages/ConsultationPage,
utils/api.js) and proofs about the real-time consultation session logic:
silence detection, the conversation message store, audio playback sequencing,
preference persistence, and the channel init/auto-detect payloads.

All definitions are translated directly from the JavaScript source.  JS
`x || default` on optional values is modelled with explicit truthiness
(`undefined`, `false`, `""` and `0` are falsy); `x ?? default` with
`Option.getD`.  Times are naturals (milliseconds, `Date.now()`).
-/

/-- JS `s || d` for an optional string field (`undefined` and `""` are falsy). -/
def jsOrString : Option String → String → String
  | some s, d => if s = "" then d else s
  | none, d => d

/-- JS `b || d` for an optional boolean field (`undefined` and `false` are falsy). -/
def jsOrBool : Option Bool → Bool → Bool
  | some b, d => if b then b else d
  | none, d => d

/-- JS `n || d` for an optional number field (`undefined` and `0` are falsy). -/
def jsOrNat : Option Nat → Nat → Nat
  | some n, d => if n = 0 then d else n
  | none, d => d

/-- JS truthiness of an optional string (`undefined` and `""` are falsy). -/
def truthyStr : Option String → Bool
  | some s => !s.isEmpty
  | none => false

/-- JS `String.prototype.trim()`: strip leading and trailing whitespace
(structural definition over the character list). -/
def jsTrim (s : String) : String :=
  String.mk (((s.data.dropWhile Char.isWhitespace).reverse.dropWhile Char.isWhitespace).reverse)

/-!
## Voice capture pipeline: `detectSilence`
(ChatInterface `detectSilence(stream, onSilence, silenceDelay = 3000, minDecibels = -45)`)

The source sets `startTime = Date.now()` and, after wiring the audio graph,
`let lastSound = Date.now()`; both are the recording start instant `t0`.
`lastSound` is never reassigned anywhere in the source.  Each `audioprocess`
callback computes the average of the frequency-bin bytes and, once the
minimum recording duration has elapsed, fires `onSilence()` and disconnects
the microphone source, the script processor, and closes the audio context
when the average is zero and `Date.now() - lastSound > silenceDelay`.
A sample is modelled as `(Date.now(), average)`.  After `audioContext.close()`
no further `audioprocess` callbacks are delivered, hence the `fired` guard.
-/

/-- `minRecordingDuration = 2000` in `detectSilence`. -/
def minRecordingDuration : Nat := 2000

/-- Default `silenceDelay = 3000` parameter of `detectSilence`. -/
def defaultSilenceDelay : Nat := 3000

/-- The mutable state of one `detectSilence` invocation, including the
audio-graph resources it holds (media-stream source, script processor,
audio context). -/
structure SilenceState where
  startTime : Nat
  lastSound : Nat
  fired : Bool
  firedAt : Option Nat
  micConnected : Bool
  processorConnected : Bool
  contextOpen : Bool
deriving Repr, DecidableEq

/-- State set up by `detectSilence` at recording start `t0`:
`startTime = lastSound = t0`, all audio-graph resources connected. -/
def detectSilenceInit (t0 : Nat) : SilenceState :=
  { startTime := t0, lastSound := t0, fired := false, firedAt := none,
    micConnected := true, processorConnected := true, contextOpen := true }

/-- One `audioprocess` callback of `detectSilence`.  `sample.1` is
`Date.now()` at the callback, `sample.2` the average frequency-bin energy.
Mirrors:
`if (Date.now() - startTime > minRecordingDuration) {`
`  if (average === 0 && Date.now() - lastSound > silenceDelay) {`
`    onSilence(); microphone.disconnect(); scriptProcessor.disconnect(); audioContext.close(); } }`
Note that `lastSound` is left unchanged on every branch, exactly as in the
source (it is initialised once and never reassigned). -/
def audioprocessStep (silenceDelay : Nat) (st : SilenceState) (sample : Nat × Nat) : SilenceState :=
  if st.fired then st
  else if sample.1 - st.startTime > minRecordingDuration ∧
          sample.2 = 0 ∧ sample.1 - st.lastSound > silenceDelay then
    { st with
      fired := true
      firedAt := some sample.1
      micConnected := false
      processorConnected := false
      contextOpen := false }
  else st

/-- Run `detectSilence` started at `t0` over a trace of `audioprocess`
samples, in callback order. -/
def runSilence (silenceDelay t0 : Nat) (samples : List (Nat × Nat)) : SilenceState :=
  samples.foldl (audioprocessStep silenceDelay) (detectSilenceInit t0)

/-!
## Recording session: `startRecording` / `stopRecording`
(ChatInterface)
-/

/-- A recording session: the `MediaRecorder` state flag, the React
`isRecording` flag, and the silence-detection pipeline started alongside it. -/
structure RecSession where
  recorderRecording : Bool
  isRecording : Bool
  silence : SilenceState
deriving Repr, DecidableEq

/-- `startRecording` at time `t0`: the recorder starts, `setIsRecording(true)`,
and `detectSilence(stream, ...)` wires up its audio graph. -/
def startRecordingModel (t0 : Nat) : RecSession :=
  { recorderRecording := true, isRecording := true, silence := detectSilenceInit t0 }

/-- `stopRecording`: `if (mediaRecorderRef.current.state === 'recording')
{ mediaRecorderRef.current.stop(); setIsRecording(false); }`.  It touches
nothing of the silence-detection audio graph. -/
def stopRecordingModel (s : RecSession) : RecSession :=
  if s.recorderRecording then { s with recorderRecording := false, isRecording := false } else s

/-- One `audioprocess` callback seen at the level of the whole recording
session: when the silence condition fires, `onSilence()` runs
(`if (mediaRecorderRef.current?.state === 'recording') stopRecording()`),
then the audio graph is disconnected and the context closed. -/
def recAudioprocessStep (silenceDelay : Nat) (s : RecSession) (sample : Nat × Nat) : RecSession :=
  let st := s.silence
  if st.fired then s
  else if sample.1 - st.startTime > minRecordingDuration ∧
          sample.2 = 0 ∧ sample.1 - st.lastSound > silenceDelay then
    let s1 := stopRecordingModel s
    { s1 with
      silence := { st with
        fired := true
        firedAt := some sample.1
        micConnected := false
        processorConnected := false
        contextOpen := false } }
  else s

/-- A trace on which sound (average 50) is present until 4000 ms and the
energy is zero from the 5000 ms sample onward; recording starts at `t0 = 0`. -/
def silenceTraceC1 : List (Nat × Nat) :=
  [(1000, 50), (2000, 50), (3000, 50), (4000, 50),
   (5000, 0), (6000, 0), (7000, 0), (8000, 0), (9000, 0)]

/-- C1: the claim says the silence delay is measured from a `lastSound`
timestamp that is updated on every sample with energy above the near-zero
threshold, so that when energy drops to zero at `t1 = 5000 > t0 + 2000` the
stop callback fires at `t1 + 3000 = 8000`.  In the source `lastSound` is
never updated, so on this trace the loop fires at the very first zero-energy
sample, 5000 ms — not at 8000 ms. -/
theorem detectSilence_fires_at_first_zero_sample :
    (runSilence defaultSilenceDelay 0 silenceTraceC1).firedAt = some 5000 ∧
    (runSilence defaultSilenceDelay 0 silenceTraceC1).lastSound = 0 ∧
    ¬ (runSilence defaultSilenceDelay 0 silenceTraceC1).firedAt = some 8000 := by
  decide

/-- `audioprocessStep` never changes `startTime`. -/
theorem audioprocessStep_startTime (silenceDelay : Nat) (st : SilenceState) (sample : Nat × Nat) :
    (audioprocessStep silenceDelay st sample).startTime = st.startTime := by
  unfold audioprocessStep
  split
  · rfl
  · split <;> rfl

/-- Invariant for the silence loop: any recorded firing instant lies strictly
beyond `startTime + minRecordingDuration`, and this is preserved by folding
`audioprocessStep` over any sample trace. -/
theorem silence_foldl_fired (silenceDelay : Nat) (samples : List (Nat × Nat)) :
    ∀ st : SilenceState,
      (∀ u, st.firedAt = some u → st.startTime + minRecordingDuration < u) →
      ∀ t, (samples.foldl (audioprocessStep silenceDelay) st).firedAt = some t →
        st.startTime + minRecordingDuration < t := by
  induction samples with
  | nil => intro st h t ht; exact h t ht
  | cons s rest ih =>
    intro st h t ht
    have hstep : ∀ u, (audioprocessStep silenceDelay st s).firedAt = some u →
        (audioprocessStep silenceDelay st s).startTime + minRecordingDuration < u := by
      intro u hu
      rw [audioprocessStep_startTime]
      unfold audioprocessStep at hu
      by_cases hf : st.fired
      · simp only [hf, if_pos] at hu
        exact h u hu
      · simp only [hf, if_neg, Bool.false_eq_true, not_false_iff, if_false] at hu
        by_cases hc : s.1 - st.startTime > minRecordingDuration ∧
            s.2 = 0 ∧ s.1 - st.lastSound > silenceDelay
        · rw [if_pos hc] at hu
          simp only [Option.some.injEq] at hu
          omega
        · rw [if_neg hc] at hu
          exact h u hu
    have hrest := ih (audioprocessStep silenceDelay st s) hstep t ht
    rwa [audioprocessStep_startTime] at hrest

/-- C2: whatever the sample trace (in particular even when the average energy
is zero from the very start), when the silence-detection loop invokes the stop
callback at some instant `t`, then `t > t0 + 2000`: auto-stop never fires
before the minimum recording duration has elapsed. -/
theorem detectSilence_respects_minimum_duration (silenceDelay t0 : Nat)
    (samples : List (Nat × Nat)) (t : Nat)
    (h : (runSilence silenceDelay t0 samples).firedAt = some t) :
    t0 + minRecordingDuration < t := by
  have hinit : ∀ u, (detectSilenceInit t0).firedAt = some u →
      (detectSilenceInit t0).startTime + minRecordingDuration < u := by
    intro u hu
    simp [detectSilenceInit] at hu
  have := silence_foldl_fired silenceDelay samples (detectSilenceInit t0) hinit t h
  simpa [detectSilenceInit] using this

/-- Witness for C2 on a concrete run: with zero energy throughout, the loop
fires at the 5000 ms sample, which is indeed past `0 + 2000`. -/
theorem detectSilence_respects_minimum_duration_witness :
    (runSilence defaultSilenceDelay 0 [(1000, 0), (5000, 0)]).firedAt = some 5000 ∧
    0 + minRecordingDuration < 5000 :=
  ⟨by decide,
   detectSilence_respects_minimum_duration defaultSilenceDelay 0 [(1000, 0), (5000, 0)] 5000
     (by decide)⟩

/-- C4 counterexample: a manual `stopRecording` right after `startRecording`
terminates the recording (the recorder leaves the `recording` state), yet the
silence-detection audio graph — media-stream source, script processor and
audio context — is still connected: resources are not released on this
termination path. -/
theorem manual_stop_leaks_audio_graph :
    (stopRecordingModel (startRecordingModel 0)).recorderRecording = false ∧
    (stopRecordingModel (startRecordingModel 0)).isRecording = false ∧
    (stopRecordingModel (startRecordingModel 0)).silence.micConnected = true ∧
    (stopRecordingModel (startRecordingModel 0)).silence.processorConnected = true ∧
    (stopRecordingModel (startRecordingModel 0)).silence.contextOpen = true := by
  decide

/-- C4 amended: the audio-graph resources are released exactly on the silence
auto-stop path — when a sample makes the loop fire, the microphone source and
script processor are disconnected, the context is closed, and the recorder is
stopped — while a manual `stopRecording` leaves the silence-detection pipeline
and its resources completely untouched (it neither cancels nor releases it). -/
theorem recording_resource_release_paths :
    (∀ s : RecSession, (stopRecordingModel s).silence = s.silence) ∧
    (∀ (silenceDelay : Nat) (s : RecSession) (sample : Nat × Nat),
      (recAudioprocessStep silenceDelay s sample).silence.fired = true →
      s.silence.fired = false →
      (recAudioprocessStep silenceDelay s sample).silence.micConnected = false ∧
      (recAudioprocessStep silenceDelay s sample).silence.processorConnected = false ∧
      (recAudioprocessStep silenceDelay s sample).silence.contextOpen = false ∧
      (recAudioprocessStep silenceDelay s sample).recorderRecording = false) := by
  constructor
  · intro s
    unfold stopRecordingModel
    split <;> rfl
  · intro silenceDelay s sample hfired hnot
    unfold recAudioprocessStep at hfired ⊢
    by_cases hf : s.silence.fired
    · rw [hf] at hnot; cases hnot
    · simp only [hf, Bool.false_eq_true, if_false, if_neg, not_false_iff] at hfired ⊢
      by_cases hc : sample.1 - s.silence.startTime > minRecordingDuration ∧
          sample.2 = 0 ∧ sample.1 - s.silence.lastSound > silenceDelay
      · rw [if_pos hc]
        refine ⟨rfl, rfl, rfl, ?_⟩
        unfold stopRecordingModel
        split
        · rfl
        · simp_all
      · rw [if_neg hc] at hfired
        rw [hfired] at hnot
        cases hnot

/-- Witness for C4 (amended): a concrete firing sample releases all three
audio-graph resources and stops the recorder. -/
theorem recording_resource_release_paths_witness :
    (recAudioprocessStep defaultSilenceDelay (startRecordingModel 0) (5000, 0)).silence.micConnected = false ∧
    (recAudioprocessStep defaultSilenceDelay (startRecordingModel 0) (5000, 0)).silence.processorConnected = false ∧
    (recAudioprocessStep defaultSilenceDelay (startRecordingModel 0) (5000, 0)).silence.contextOpen = false ∧
    (recAudioprocessStep defaultSilenceDelay (startRecordingModel 0) (5000, 0)).recorderRecording = false :=
  recording_resource_release_paths.2 defaultSilenceDelay (startRecordingModel 0) (5000, 0)
    (by decide) (by decide)

/-!
## Conversation state store and channel handler
(ChatInterface: `messages` state, `ws.onmessage`, `handleSendMessage`)
-/

/-- The `language` record attached to a stored message
(`{source, target, detected, confidence}`). -/
structure LangInfo where
  source : Option String
  target : Option String
  detected : Option Bool
  confidence : Option Rat
deriving Repr, DecidableEq

/-- The `analysis` record attached to a stored message. -/
structure Analysis where
  symptoms : List String
  confidence : Option Rat
  urgency : Option String
  requiresEmergency : Option Bool
  recommendations : Option (List String)
deriving Repr, DecidableEq

/-- One entry of the conversation state store (`messages` array). -/
structure Message where
  type : String
  content : String
  originalContent : Option String
  translatedContent : Option String
  language : LangInfo
  timestamp : Nat
  audio : Option String
  analysis : Option Analysis
deriving Repr, DecidableEq

/-- A parsed inbound server event (`data` in `ws.onmessage`); every field the
handler reads.  `lang_source` stands for `data.language?.source`, and so on;
`confidence_overall` for `data.confidence_scores?.overall`. -/
structure ServerEvent where
  type : Option String
  content : String
  original_message : Option String
  translated_message : Option String
  lang_source : Option String
  lang_target : Option String
  lang_detected : Option Bool
  lang_confidence : Option Rat
  timestamp : Option Nat
  audio : Option String
  symptoms : Option (List String)
  confidence_overall : Option Rat
  urgency : Option String
  requires_emergency : Option Bool
  recommendations : Option (List String)
deriving Repr, DecidableEq

/-- A server event with every optional field absent, used as a base for
concrete events. -/
def emptyServerEvent : ServerEvent :=
  { type := none, content := "", original_message := none, translated_message := none,
    lang_source := none, lang_target := none, lang_detected := none, lang_confidence := none,
    timestamp := none, audio := none, symptoms := none, confidence_overall := none,
    urgency := none, requires_emergency := none, recommendations := none }

/-- A raw inbound frame: either `JSON.parse(event.data)` succeeds with a
parsed event, or it throws (malformed payload). -/
inductive Inbound where
  | malformed : Inbound
  | event : ServerEvent → Inbound
deriving Repr, DecidableEq

/-- The Message appended by `ws.onmessage` for a non-error event, field by
field from the source (`data.type || 'bot'`, `new Date(data.timestamp ||
Date.now())`, `data.symptoms || []`, ...).  `now` is `Date.now()` at arrival. -/
def toMessage (now : Nat) (e : ServerEvent) : Message :=
  { type := jsOrString e.type "bot"
    content := e.content
    originalContent := e.original_message
    translatedContent := e.translated_message
    language := { source := e.lang_source, target := e.lang_target,
                  detected := e.lang_detected, confidence := e.lang_confidence }
    timestamp := jsOrNat e.timestamp now
    audio := e.audio
    analysis := some { symptoms := e.symptoms.getD []
                       confidence := e.confidence_overall
                       urgency := e.urgency
                       requiresEmergency := e.requires_emergency
                       recommendations := e.recommendations } }

/-- The ChatInterface component state touched by the channel handlers:
the `messages` store, the `wsError` banner, whether the WebSocket is still
open, and the auto-playback bookkeeping (`audioPlayerRef.current` plus the
set of `Audio` elements that have been started and not paused; each started
`new Audio(...)` gets a fresh id). -/
structure ChatState where
  messages : List Message
  wsError : Option String
  connectionOpen : Bool
  audioPlayerRef : Option Nat
  playing : List Nat
  nextAudioId : Nat
deriving Repr, DecidableEq

/-- `ws.onmessage`: parse; on parse failure log and set
`wsError = 'Error processing message'`; on `data.type === "error"` set the
error banner and return; otherwise append the mapped Message, then — if
`data.audio` is truthy and voice is enabled — create a fresh `Audio`, store
it in `audioPlayerRef.current` and start playing it.  Nothing on any path
closes the connection, removes a stored message, or pauses the previously
playing audio. -/
def onmessage (voiceEnabled : Bool) (now : Nat) (st : ChatState) (raw : Inbound) : ChatState :=
  match raw with
  | Inbound.malformed => { st with wsError := some "Error processing message" }
  | Inbound.event e =>
    if e.type = some "error" then { st with wsError := some e.content }
    else
      let st1 := { st with messages := st.messages ++ [toMessage now e] }
      if truthyStr e.audio && voiceEnabled then
        { st1 with
          audioPlayerRef := some st1.nextAudioId
          playing := st1.playing ++ [st1.nextAudioId]
          nextAudioId := st1.nextAudioId + 1 }
      else st1

/-- Deliver a list of raw inbound frames, each tagged with its arrival time,
in network-arrival order. -/
def processAll (voiceEnabled : Bool) (st : ChatState) (evs : List (Nat × Inbound)) : ChatState :=
  evs.foldl (fun s p => onmessage voiceEnabled p.1 s p.2) st

/-- The user Message appended by `handleSendMessage` (no `originalContent`,
`translatedContent` or `audio` keys; `analysis: null`). -/
def userMessage (now : Nat) (text : String) (selectedLanguage : String) : Message :=
  { type := "user"
    content := jsTrim text
    originalContent := none
    translatedContent := none
    language := { source := some selectedLanguage, target := some selectedLanguage,
                  detected := some false, confidence := some 1 }
    timestamp := now
    audio := none
    analysis := none }

/-- `handleSendMessage(text)`: `if (!text.trim() || !wsInstance) return;`
then optimistically append the user message (and send it on the channel). -/
def handleSendMessage (st : ChatState) (now : Nat) (text : String)
    (selectedLanguage : String) (wsPresent : Bool) : ChatState :=
  if jsTrim text = "" ∨ wsPresent = false then st
  else { st with messages := st.messages ++ [userMessage now text selectedLanguage] }

/-- The single blank placeholder entry the `messages` `useState` initialiser
contains (a template message with empty strings and a zeroed analysis). -/
def initialPlaceholderMessage : Message :=
  { type := ""
    content := ""
    originalContent := some ""
    translatedContent := some ""
    language := { source := some "", target := some "", detected := some false,
                  confidence := some 0 }
    timestamp := 0
    audio := none
    analysis := some { symptoms := [], confidence := some 0, urgency := some "",
                       requiresEmergency := some false, recommendations := some [] } }

/-- Initial `messages` state of a fresh ChatInterface session. -/
def initialMessages : List Message := [initialPlaceholderMessage]

/-- A fresh ChatInterface session state. -/
def freshChatState : ChatState :=
  { messages := initialMessages, wsError := none, connectionOpen := true,
    audioPlayerRef := none, playing := [], nextAudioId := 0 }

/-- For a non-error parsed inbound event, `ws.onmessage` appends exactly the
mapped message at the end of the store. -/
theorem onmessage_nonerror_messages (voiceEnabled : Bool) (now : Nat) (st : ChatState)
    (e : ServerEvent) (h : ¬ e.type = some "error") :
    (onmessage voiceEnabled now st (Inbound.event e)).messages
      = st.messages ++ [toMessage now e] := by
  simp only [onmessage]
  rw [if_neg h]
  split <;> rfl

/-- C5: delivering any sequence of parsed non-error inbound events appends
exactly their 1:1 `toMessage` images, in delivery order, at the end of the
store; and every store operation (`ws.onmessage` on any frame,
`handleSendMessage` on any input) either leaves the store unchanged or
appends a single entry at the end — existing entries are never removed or
reordered. -/
theorem conversation_store_ordering :
    (∀ (voiceEnabled : Bool) (st : ChatState) (evs : List (Nat × ServerEvent)),
      (∀ p ∈ evs, ¬ p.2.type = some "error") →
      (processAll voiceEnabled st (evs.map (fun p => (p.1, Inbound.event p.2)))).messages
        = st.messages ++ evs.map (fun p => toMessage p.1 p.2)) ∧
    (∀ (voiceEnabled : Bool) (now : Nat) (st : ChatState) (raw : Inbound),
      (onmessage voiceEnabled now st raw).messages = st.messages ∨
      ∃ m, (onmessage voiceEnabled now st raw).messages = st.messages ++ [m]) ∧
    (∀ (st : ChatState) (now : Nat) (text lang : String) (wsPresent : Bool),
      (handleSendMessage st now text lang wsPresent).messages = st.messages ∨
      ∃ m, (handleSendMessage st now text lang wsPresent).messages = st.messages ++ [m]) := by
  refine ⟨?_, ?_, ?_⟩
  · intro voiceEnabled st evs
    induction evs generalizing st with
    | nil => intro _; simp [processAll]
    | cons p rest ih =>
      intro h
      have hp : ¬ p.2.type = some "error" := h p (List.mem_cons_self p rest)
      have hrest : ∀ q ∈ rest, ¬ q.2.type = some "error" := by
        intro q hq; exact h q (List.mem_cons_of_mem p hq)
      have hstep := onmessage_nonerror_messages voiceEnabled p.1 st p.2 hp
      simp only [List.map_cons, processAll, List.foldl_cons] at ih ⊢
      rw [ih (onmessage voiceEnabled p.1 st (Inbound.event p.2)) hrest, hstep,
        List.append_assoc]
      simp
  · intro voiceEnabled now st raw
    match raw with
    | Inbound.malformed => left; rfl
    | Inbound.event e =>
      by_cases he : e.type = some "error"
      · left; simp [onmessage, he]
      · right; exact ⟨toMessage now e, onmessage_nonerror_messages voiceEnabled now st e he⟩
  · intro st now text lang wsPresent
    unfold handleSendMessage
    split
    · left; rfl
    · right; exact ⟨userMessage now text lang, rfl⟩

/-- A concrete bot reply event. -/
def demoBotEvent1 : ServerEvent :=
  { emptyServerEvent with type := some "bot", content := "first reply" }

/-- A concrete reply event without a `type` field (mapped to kind `bot`). -/
def demoBotEvent2 : ServerEvent :=
  { emptyServerEvent with content := "second reply" }

/-- Witness for C5: two concrete non-error events delivered to a fresh
session append exactly their two mapped messages, in order. -/
theorem conversation_store_ordering_witness :
    (processAll true freshChatState
      (([(5, demoBotEvent1), (6, demoBotEvent2)] : List (Nat × ServerEvent)).map
        (fun p => (p.1, Inbound.event p.2)))).messages
      = freshChatState.messages
        ++ ([(5, demoBotEvent1), (6, demoBotEvent2)] : List (Nat × ServerEvent)).map
             (fun p => toMessage p.1 p.2) :=
  conversation_store_ordering.1 true freshChatState [(5, demoBotEvent1), (6, demoBotEvent2)]
    (by decide)

/-- C8: an inbound `{type:"error", content}` frame only sets the non-fatal
error banner: the store is unchanged, the connection stays open, and the
banner carries the event's content; a malformed (unparseable) frame is
likewise dropped with the store and connection untouched and the generic
processing-error banner set.  No crash, no partial append. -/
theorem error_and_malformed_events_leave_store_unchanged :
    (∀ (voiceEnabled : Bool) (now : Nat) (st : ChatState) (e : ServerEvent),
      e.type = some "error" →
      (onmessage voiceEnabled now st (Inbound.event e)).messages = st.messages ∧
      (onmessage voiceEnabled now st (Inbound.event e)).connectionOpen = st.connectionOpen ∧
      (onmessage voiceEnabled now st (Inbound.event e)).wsError = some e.content) ∧
    (∀ (voiceEnabled : Bool) (now : Nat) (st : ChatState),
      (onmessage voiceEnabled now st Inbound.malformed).messages = st.messages ∧
      (onmessage voiceEnabled now st Inbound.malformed).connectionOpen = st.connectionOpen ∧
      (onmessage voiceEnabled now st Inbound.malformed).wsError
        = some "Error processing message") := by
  constructor
  · intro voiceEnabled now st e he
    simp [onmessage, he]
  · intro voiceEnabled now st
    exact ⟨rfl, rfl, rfl⟩

/-- A concrete inbound error frame. -/
def demoErrorEvent : ServerEvent :=
  { emptyServerEvent with type := some "error", content := "processing failed" }

/-- Witness for C8: the concrete error frame leaves a fresh session's store
and connection untouched and sets the banner to its content. -/
theorem error_event_witness :
    (onmessage true 7 freshChatState (Inbound.event demoErrorEvent)).messages
        = freshChatState.messages ∧
    (onmessage true 7 freshChatState (Inbound.event demoErrorEvent)).connectionOpen
        = freshChatState.connectionOpen ∧
    (onmessage true 7 freshChatState (Inbound.event demoErrorEvent)).wsError
        = some demoErrorEvent.content :=
  error_and_malformed_events_leave_store_unchanged.1 true 7 freshChatState demoErrorEvent rfl

/-- A session state in which message A's auto-played audio (id 0) is active. -/
def playingStateA : ChatState :=
  { freshChatState with audioPlayerRef := some 0, playing := [0], nextAudioId := 1 }

/-- A bot event carrying synthesized audio. -/
def botAudioEvent : ServerEvent :=
  { emptyServerEvent with type := some "bot", content := "take rest", audio := some "UklGRg" }

/-- C3 counterexample: with message A's audio still playing, the arrival of a
new audio-bearing bot message starts playback B without stopping A — after the
handler runs, both audio elements are active, refuting "at most one audio
playback is active / starting B stops A first". -/
theorem new_autoplay_overlaps_previous :
    (onmessage true 100 playingStateA (Inbound.event botAudioEvent)).playing = [0, 1] ∧
    ¬ (onmessage true 100 playingStateA (Inbound.event botAudioEvent)).playing.length ≤ 1 := by
  decide

/-- C3 amended: on an audio-bearing non-error message with voice enabled, the
handler repoints the single `audioPlayerRef` handle at the freshly created
audio and starts it, but the previously playing audio is not paused: the set
of active playbacks is the old one plus the new element, so playbacks can
overlap (the superseded handle is only paused at session teardown). -/
theorem autoplay_keeps_previous_playing (voiceEnabled : Bool) (now : Nat) (st : ChatState)
    (e : ServerEvent) (h1 : ¬ e.type = some "error") (h2 : truthyStr e.audio = true)
    (h3 : voiceEnabled = true) :
    (onmessage voiceEnabled now st (Inbound.event e)).playing
        = st.playing ++ [st.nextAudioId] ∧
    (onmessage voiceEnabled now st (Inbound.event e)).audioPlayerRef
        = some st.nextAudioId := by
  subst h3
  simp [onmessage, h1, h2]

/-- Witness for C3 (amended): the concrete overlap scenario, via the general
statement. -/
theorem autoplay_keeps_previous_playing_witness :
    (onmessage true 100 playingStateA (Inbound.event botAudioEvent)).playing
        = playingStateA.playing ++ [playingStateA.nextAudioId] ∧
    (onmessage true 100 playingStateA (Inbound.event botAudioEvent)).audioPlayerRef
        = some playingStateA.nextAudioId :=
  autoplay_keeps_previous_playing true 100 playingStateA botAudioEvent
    (by decide) (by decide) rfl

/-- State after `handleSendMessage("I have a headache")` in a fresh session
(at 10 ms, selected language `en`, channel present). -/
def scenarioUserSent : ChatState :=
  handleSendMessage freshChatState 10 "I have a headache" "en" true

/-- The scenario's inbound bot event. -/
def scenarioBotEvent : ServerEvent :=
  { emptyServerEvent with
    type := some "bot"
    content := "Please describe your headache."
    lang_source := some "en"
    lang_target := some "en"
    symptoms := some ["headache"]
    requires_emergency := some false }

/-- Store state after the scenario: send one user message, receive one bot
event. -/
def scenarioFinal : ChatState :=
  onmessage true 20 scenarioUserSent (Inbound.event scenarioBotEvent)

/-- C6 counterexample: after one user message and one bot event, the store
holds three entries, not two — the `messages` `useState` initialiser already
contains a blank placeholder message. -/
theorem scenario_store_has_three_messages :
    scenarioFinal.messages.length = 3 ∧ ¬ scenarioFinal.messages.length = 2 := by
  decide

/-- C6 amended: the scenario leaves the store with exactly three messages —
the initial blank placeholder, then the user message, then the bot message,
in that order — and the bot message's `analysis.requiresEmergency` equals the
inbound event's `requires_emergency`, namely `false`. -/
theorem scenario_store_contents :
    scenarioFinal.messages.length = 3 ∧
    scenarioFinal.messages.get? 0 = some initialPlaceholderMessage ∧
    (scenarioFinal.messages.get? 1).map Message.type = some "user" ∧
    (scenarioFinal.messages.get? 1).map Message.content = some "I have a headache" ∧
    (scenarioFinal.messages.get? 2).map Message.type = some "bot" ∧
    ((scenarioFinal.messages.get? 2).bind Message.analysis).map Analysis.requiresEmergency
      = some (some false) := by
  decide

/-!
## Channel connect and speech API payloads
(utils/api.js: `WebSocketService.connect`, `speechApi.translateSpeech`;
ChatInterface: its own `new WebSocket(...)` with `ws.onopen`)
-/

/-- The `voicePreferences` record of the init payload. -/
structure VoiceGenderPrefs where
  enabled : Bool
  gender : String
deriving Repr, DecidableEq

/-- The `preferences` record of the outbound `{type:"init"}` event. -/
structure InitPrefs where
  language : String
  autoDetect : Bool
  voicePreferences : VoiceGenderPrefs
deriving Repr, DecidableEq

/-- The `options` argument of `WebSocketService.connect` (only the fields the
init payload reads). -/
structure ConnectOptions where
  language : Option String
  autoDetect : Option Bool
  voicePreferences : Option VoiceGenderPrefs
deriving Repr, DecidableEq

/-- The init payload built in `WebSocketService.connect`'s `ws.onopen`:
`language: options.language || 'en'`, `autoDetect: options.autoDetect || true`,
`voicePreferences: options.voicePreferences || {enabled:true, gender:'female'}`. -/
def mkInitPreferences (options : ConnectOptions) : InitPrefs :=
  { language := jsOrString options.language "en"
    autoDetect := jsOrBool options.autoDetect true
    voicePreferences := options.voicePreferences.getD { enabled := true, gender := "female" } }

/-- An outbound channel event. -/
inductive OutEvent where
  | init : InitPrefs → OutEvent
  | message : String → OutEvent
deriving Repr, DecidableEq

/-- Whether an outbound event is the `{type:"init"}` event. -/
def isInitEvent : OutEvent → Bool
  | OutEvent.init _ => true
  | OutEvent.message _ => false

/-- Events sent by `WebSocketService.connect`'s `ws.onopen` handler: exactly
one init payload (then `options.onOpen` runs). -/
def wsServiceOnOpen (options : ConnectOptions) : List OutEvent :=
  [OutEvent.init (mkInitPreferences options)]

/-- Events sent by the ChatInterface component's own `ws.onopen` handler (its
connection `useEffect` creates the WebSocket directly): the handler only logs
and clears `wsError` — it sends nothing. -/
def chatInterfaceOnOpen : List OutEvent := []

/-- The full outbound trace of one `WebSocketService.connect` connection:
whatever `ws.onopen` sends, followed by the message events sent afterwards
(the socket cannot transmit before it opens). -/
def wsServiceConnectionTrace (options : ConnectOptions) (laterMessages : List String) :
    List OutEvent :=
  wsServiceOnOpen options ++ laterMessages.map OutEvent.message

/-- The `options` argument of `speechApi.translateSpeech`. -/
structure TranslateSpeechOptions where
  sourceLanguage : Option String
  targetLanguage : Option String
  autoDetect : Option Bool
  voiceGender : Option String
deriving Repr, DecidableEq

/-- The multipart form fields appended by `speechApi.translateSpeech`:
`source_language` only when `options.sourceLanguage` is truthy, then
`target_language: options.targetLanguage || 'en'`,
`auto_detect: options.autoDetect || true`,
`voice_gender: options.voiceGender || 'female'`. -/
structure TranslateSpeechForm where
  source_language : Option String
  target_language : String
  auto_detect : Bool
  voice_gender : String
deriving Repr, DecidableEq

/-- Build the `translateSpeech` form data from the options. -/
def translateSpeechForm (options : TranslateSpeechOptions) : TranslateSpeechForm :=
  { source_language := if truthyStr options.sourceLanguage then options.sourceLanguage else none
    target_language := jsOrString options.targetLanguage "en"
    auto_detect := jsOrBool options.autoDetect true
    voice_gender := jsOrString options.voiceGender "female" }

/-- C9 counterexample: the ChatInterface component's own connection — the one
the consultation chat actually opens — sends no init event at all on connect,
refuting "on every successful channel connect the client sends exactly one
init event". -/
theorem chat_interface_connect_sends_no_init :
    chatInterfaceOnOpen.countP isInitEvent = 0 ∧
    ¬ chatInterfaceOnOpen.countP isInitEvent = 1 := by
  decide

/-- C9 amended: a connection opened through `WebSocketService.connect` sends
exactly one init event — of shape `{type:"init", preferences:{language,
autoDetect, voicePreferences:{enabled, gender}}}` built from the active
preferences — as the very first outbound event, before any message events;
the ChatInterface component's directly-created connection, however, sends no
init event on connect. -/
theorem init_sent_once_by_ws_service (options : ConnectOptions) (laterMessages : List String) :
    (wsServiceConnectionTrace options laterMessages).countP isInitEvent = 1 ∧
    (wsServiceConnectionTrace options laterMessages).head?
      = some (OutEvent.init (mkInitPreferences options)) ∧
    chatInterfaceOnOpen = [] := by
  refine ⟨?_, rfl, rfl⟩
  simp only [wsServiceConnectionTrace, wsServiceOnOpen, List.countP_append,
    List.countP_cons, List.countP_nil, isInitEvent]
  have hmsg : (laterMessages.map OutEvent.message).countP isInitEvent = 0 := by
    rw [List.countP_eq_zero]
    intro a ha
    obtain ⟨s, _, rfl⟩ := List.mem_map.mp ha
    simp [isInitEvent]
  rw [hmsg]
  simp

/-- Witness for C9 (amended) at a concrete connection: explicit options and
two later messages. -/
theorem init_sent_once_by_ws_service_witness :
    (wsServiceConnectionTrace
        { language := some "hi", autoDetect := some false, voicePreferences := none }
        ["hello", "world"]).countP isInitEvent = 1 ∧
    (wsServiceConnectionTrace
        { language := some "hi", autoDetect := some false, voicePreferences := none }
        ["hello", "world"]).head?
      = some (OutEvent.init (mkInitPreferences
          { language := some "hi", autoDetect := some false, voicePreferences := none })) ∧
    chatInterfaceOnOpen = [] :=
  init_sent_once_by_ws_service
    { language := some "hi", autoDetect := some false, voicePreferences := none }
    ["hello", "world"]

/-- C10: both the init payload of `WebSocketService.connect` and the
`auto_detect` form field of `speechApi.translateSpeech` compute the flag as
`options.autoDetect || true`, so the transmitted auto-detect flag is `true`
for every input — a disabled (`false`) auto-detect preference can never be
communicated through these two operations. -/
theorem auto_detect_flag_always_true (options : ConnectOptions)
    (topts : TranslateSpeechOptions) :
    (mkInitPreferences options).autoDetect = true ∧
    (translateSpeechForm topts).auto_detect = true := by
  constructor
  · show jsOrBool options.autoDetect true = true
    cases options.autoDetect with
    | none => rfl
    | some b => cases b <;> rfl
  · show jsOrBool topts.autoDetect true = true
    cases topts.autoDetect with
    | none => rfl
    | some b => cases b <;> rfl

/-- Witness for C10 at the sharpest input: both options explicitly set
`autoDetect := some false`, yet the transmitted flags are `true`. -/
theorem auto_detect_flag_always_true_witness :
    (mkInitPreferences
        { language := none, autoDetect := some false, voicePreferences := none }).autoDetect
      = true ∧
    (translateSpeechForm
        { sourceLanguage := none, targetLanguage := none, autoDetect := some false,
          voiceGender := none }).auto_detect = true :=
  auto_detect_flag_always_true
    { language := none, autoDetect := some false, voicePreferences := none }
    { sourceLanguage := none, targetLanguage := none, autoDetect := some false,
      voiceGender := none }

/-!
## Preference persistence
(the `userLanguagePreferences` localStorage blob; writers:
`ConsultationPage.handleSettingChange` and
ChatInterface `handleLanguageChange` / `handleAutoDetectChange`;
readers: the load `useEffect`s of both files)
-/

/-- The rational 1.5 (`voice.speed` value used in the round-trip scenario),
given in lowest terms so that it evaluates structurally. -/
def speedThreeHalves : Rat := Rat.mk' 3 2

/-- The `voice` preference record `{enabled, gender, speed}`. -/
structure VoicePrefs where
  enabled : Bool
  gender : String
  speed : Rat
deriving Repr, DecidableEq

/-- The JSON object actually stored under `userLanguagePreferences`: the union
of the key sets written by the two writers, with absent keys as `none`.
`ConsultationPage.handleSettingChange` writes `{interface, preferred,
autoDetect, voice}`; the ChatInterface handlers `JSON.stringify` their whole
settings state, whose keys are `{interfaceLanguage, preferredLanguage,
autoDetectLanguage, voice}`. -/
structure StoredBlob where
  interface : Option String
  preferred : Option String
  autoDetect : Option Bool
  interfaceLanguage : Option String
  preferredLanguage : Option String
  autoDetectLanguage : Option Bool
  voice : Option VoicePrefs
deriving Repr, DecidableEq

/-- The ChatInterface `settings` state (the fields that get persisted). -/
structure ChatSettings where
  interfaceLanguage : String
  preferredLanguage : String
  autoDetectLanguage : Bool
  voice : VoicePrefs
deriving Repr, DecidableEq

/-- The ConsultationPage `settings` state (besides `showSettings`). -/
structure PageSettings where
  showSettings : Bool
  interfaceLanguage : String
  preferredLanguage : String
  autoDetectLanguage : Bool
  voice : VoicePrefs
deriving Repr, DecidableEq

/-- The preference-loading `useEffect`, identical in ChatInterface and
ConsultationPage: `interfaceLanguage: saved.interface || 'en'`,
`preferredLanguage: saved.preferred || 'en'`,
`autoDetectLanguage: saved.autoDetect ?? true`,
`voice: saved.voice || prev.voice`. -/
def loadChatSettings (blob : StoredBlob) (prev : ChatSettings) : ChatSettings :=
  { interfaceLanguage := jsOrString blob.interface "en"
    preferredLanguage := jsOrString blob.preferred "en"
    autoDetectLanguage := blob.autoDetect.getD true
    voice := blob.voice.getD prev.voice }

/-- Same loader targeting the ConsultationPage settings state. -/
def loadPageSettings (blob : StoredBlob) (prev : PageSettings) : PageSettings :=
  { prev with
    interfaceLanguage := jsOrString blob.interface "en"
    preferredLanguage := jsOrString blob.preferred "en"
    autoDetectLanguage := blob.autoDetect.getD true
    voice := blob.voice.getD prev.voice }

/-- The blob written by `ConsultationPage.handleSettingChange`:
`{interface: s.interfaceLanguage, preferred: s.preferredLanguage,
autoDetect: s.autoDetectLanguage, voice: s.voice}` — the full merged object,
in the canonical key names. -/
def persistPageBlob (s : PageSettings) : StoredBlob :=
  { interface := some s.interfaceLanguage
    preferred := some s.preferredLanguage
    autoDetect := some s.autoDetectLanguage
    interfaceLanguage := none
    preferredLanguage := none
    autoDetectLanguage := none
    voice := some s.voice }

/-- `handleSettingChange('voice', v)`: merge the new voice record into the
settings and persist the full merged blob. -/
def handleSettingChangeVoice (s : PageSettings) (v : VoicePrefs) :
    PageSettings × StoredBlob :=
  let ns := { s with voice := v }
  (ns, persistPageBlob ns)

/-- ChatInterface `handleLanguageChange(language)`: merge
`preferredLanguage := language` into the settings state and persist
`JSON.stringify(newSettings)` — i.e. a blob under the state's own key names
(`interfaceLanguage`, `preferredLanguage`, `autoDetectLanguage`, `voice`),
not the `interface`/`preferred`/`autoDetect` keys the loaders read. -/
def handleLanguageChange (s : ChatSettings) (language : String) :
    ChatSettings × StoredBlob :=
  let ns := { s with preferredLanguage := language }
  (ns,
    { interface := none
      preferred := none
      autoDetect := none
      interfaceLanguage := some ns.interfaceLanguage
      preferredLanguage := some ns.preferredLanguage
      autoDetectLanguage := some ns.autoDetectLanguage
      voice := some ns.voice })

/-- The ChatInterface `settings` `useState` initialiser. -/
def initialChatSettings : ChatSettings :=
  { interfaceLanguage := "en", preferredLanguage := "en", autoDetectLanguage := true,
    voice := { enabled := true, gender := "female", speed := 1 } }

/-- The ConsultationPage `settings` `useState` initialiser. -/
def initialPageSettings : PageSettings :=
  { showSettings := false, interfaceLanguage := "en", preferredLanguage := "en",
    autoDetectLanguage := true,
    voice := { enabled := true, gender := "female", speed := 1 } }

/-- A previously persisted preference blob (canonical keys): Hindi interface
and preferred language, auto-detect off, male voice at speed 3/2. -/
def storedBlobHi : StoredBlob :=
  { interface := some "hi"
    preferred := some "hi"
    autoDetect := some false
    interfaceLanguage := none
    preferredLanguage := none
    autoDetectLanguage := none
    voice := some { enabled := true, gender := "male", speed := speedThreeHalves } }

/-- ChatInterface settings after loading `storedBlobHi`. -/
def chatLoadedHi : ChatSettings := loadChatSettings storedBlobHi initialChatSettings

/-- The blob persisted by `handleLanguageChange("ta")` on those settings. -/
def blobAfterLanguageChange : StoredBlob := (handleLanguageChange chatLoadedHi "ta").2

/-- ChatSettings read back from that blob in a fresh session. -/
def chatReloaded : ChatSettings := loadChatSettings blobAfterLanguageChange initialChatSettings

/-- C7: the preference round-trip breaks for the ChatInterface writer.  The
update itself takes effect in memory (`preferredLanguage = "ta"`), and via
the ConsultationPage writer the full merged object round-trips (changing
`voice.speed` to 3/2 keeps the Hindi languages and the auto-detect flag on
reload).  But `handleLanguageChange` persists the settings under the keys
`interfaceLanguage`/`preferredLanguage`/`autoDetectLanguage`, which no loader
reads: a fresh-session load after it returns the `en`/`en`/`true` defaults —
the changed field is lost and the previously-set sibling fields `interface =
"hi"` and `autoDetect = false` are wiped, with only `voice` (whose key
happens to coincide) surviving. -/
theorem preference_roundtrip_loses_fields :
    chatLoadedHi.preferredLanguage = "hi" ∧
    chatLoadedHi.interfaceLanguage = "hi" ∧
    chatLoadedHi.autoDetectLanguage = false ∧
    (handleLanguageChange chatLoadedHi "ta").1.preferredLanguage = "ta" ∧
    chatReloaded.preferredLanguage = "en" ∧
    ¬ chatReloaded.preferredLanguage = "ta" ∧
    chatReloaded.interfaceLanguage = "en" ∧
    chatReloaded.autoDetectLanguage = true ∧
    chatReloaded.voice.speed = speedThreeHalves ∧
    (loadPageSettings
        (handleSettingChangeVoice (loadPageSettings storedBlobHi initialPageSettings)
          { enabled := true, gender := "male", speed := speedThreeHalves }).2
        initialPageSettings).voice.speed = speedThreeHalves ∧
    (loadPageSettings
        (handleSettingChangeVoice (loadPageSettings storedBlobHi initialPageSettings)
          { enabled := true, gender := "male", speed := speedThreeHalves }).2
        initialPageSettings).preferredLanguage = "hi" ∧
    (loadPageSettings
        (handleSettingChangeVoice (loadPageSettings storedBlobHi initialPageSettings)
          { enabled := true, gender := "male", speed := speedThreeHalves }).2
        initialPageSettings).autoDetectLanguage = false := by
  decide
